import Mathlib

/-!
Verification development for the Vani text-to-speech application
(`src/types.ts`, `src/services/geminiService.ts`, `src/App.tsx`,
`src/components/HistoryList.tsx`).

The speech-request compiler (`GeminiTTSService.generateSpeech`), the
playback controller of `App.tsx`, the history update of `generateTTS`
and the response-extraction logic are embedded shallowly below.
Numeric slider values (speed, pitch, volume) are modelled as rationals;
the JavaScript rendering of a number into the cloned-voice prompt is
kept abstract as explicit string arguments (`speedStr`, `pitchStr`),
since no verified property depends on the decimal rendering itself.
-/

namespace Vani

/-! ## Data model (src/types.ts) -/

inductive Language where
  | ENGLISH
  | TELUGU
  | MIXED
deriving DecidableEq

/-- The string value of each `Language` enum member. -/
def languageStr : Language → String
  | .ENGLISH => "English"
  | .TELUGU => "Telugu"
  | .MIXED => "English-Telugu Mixed"

inductive Accent where
  | NEUTRAL
  | TELUGU_ACCENT
  | FORMAL
  | CHEERFUL
  | ROMANTIC
  | PODCAST
  | WHISPER
deriving DecidableEq

/-- `ClonedVoice` record from `src/types.ts` (audio sample kept as its
base64 text, as in the source). -/
structure ClonedVoice where
  id : String
  name : String
  audioData : String
  mimeType : String
  timestamp : Int
deriving DecidableEq

/-- `VOICE_METADATA[voice] || { label: 'Assistant', ... }` lookup: the
TypeScript `VoiceName | string` union erases to a string key at runtime,
so the voice selector is modelled as a `String`. -/
def voiceLabel (voice : String) : String :=
  if voice = "Kore" then "Anjali"
  else if voice = "Zephyr" then "Siri"
  else if voice = "Puck" then "Arjun"
  else if voice = "Charon" then "Venkat"
  else if voice = "Fenrir" then "Rajesh"
  else "Assistant"

/-- Whitespace trimming on a char list: drop leading and trailing
whitespace characters. -/
def trimChars (l : List Char) : List Char :=
  ((l.dropWhile Char.isWhitespace).reverse.dropWhile Char.isWhitespace).reverse

/-- Models the JavaScript `text.trim()` calls of the source. -/
def jsTrim (s : String) : String :=
  ⟨trimChars s.data⟩

/-! ## Instruction compiler (src/services/geminiService.ts, generateSpeech) -/

/-- The `stylePrefix` ladder of `generateSpeech` (lines 60-64). -/
def styleDesc : Accent → String
  | .CHEERFUL => "Say cheerfully: "
  | .FORMAL => "Say formally: "
  | .ROMANTIC => "Say romantically: "
  | .PODCAST => "Say in an engaging conversational podcast style: "
  | .WHISPER => "Whisper this quietly and softly: "
  | _ => ""

/-- The `speedDesc` ladder of `generateSpeech` (lines 66-70). -/
def speedDesc (speed : ℚ) : String :=
  if speed ≤ mkRat 6 10 then "very slowly"
  else if speed ≤ mkRat 8 10 then "slowly"
  else if speed ≥ mkRat 17 10 then "very quickly"
  else if speed ≥ mkRat 13 10 then "quickly"
  else "at a normal pace"

/-- The `pitchDesc` ladder of `generateSpeech` (lines 72-76). -/
def pitchDesc (pitch : ℚ) : String :=
  if pitch ≥ mkRat 13 10 then "with a very high-pitched, bright voice"
  else if pitch ≥ mkRat 11 10 then "with a slightly higher pitch"
  else if pitch ≤ mkRat 7 10 then "with a deep, low-pitched voice"
  else if pitch ≤ mkRat 9 10 then "with a slightly lower pitch"
  else "with a natural pitch"

/-- The `volDesc` ladder of `generateSpeech` (lines 78-81): the Whisper
accent overrides the two volume thresholds; there is no intermediate
tier between 0.4 and 0.9. -/
def volDesc (accent : Accent) (volume : ℚ) : String :=
  if accent = .WHISPER then "softly, in a hushed whisper"
  else if volume ≥ mkRat 9 10 then "loudly and powerfully"
  else if volume ≤ mkRat 4 10 then "softly, almost in a whisper"
  else "at a standard volume"

/-- `audioInstruction` of `generateSpeech` (line 83). -/
def audioInstruction (accent : Accent) (speed pitch volume : ℚ) : String :=
  "Speak " ++ speedDesc speed ++ ", " ++ pitchDesc pitch ++ ", and "
    ++ volDesc accent volume ++ "."

/-- The `instruction` frame selection of `generateSpeech` (lines 85-95). -/
def instruction (language : Language) (accent : Accent) (voice : String)
    (speed pitch volume : ℚ) : String :=
  match language with
  | .TELUGU =>
      "As " ++ voiceLabel voice ++ ", read this Telugu text clearly. "
        ++ audioInstruction accent speed pitch volume ++ " " ++ styleDesc accent
  | .ENGLISH =>
      if accent = .TELUGU_ACCENT then
        "As " ++ voiceLabel voice
          ++ ", read this English text with a natural, clear Telugu regional accent. "
          ++ audioInstruction accent speed pitch volume
      else
        "As " ++ voiceLabel voice ++ ", read this English text. "
          ++ audioInstruction accent speed pitch volume ++ " " ++ styleDesc accent
  | .MIXED =>
      "As " ++ voiceLabel voice ++ ", read this mixed text naturally. "
        ++ audioInstruction accent speed pitch volume ++ " " ++ styleDesc accent

/-- `fullPrompt` of `generateSpeech` (line 97). -/
def fullPrompt (text : String) (language : Language) (accent : Accent)
    (voice : String) (speed pitch volume : ℚ) : String :=
  instruction language accent voice speed pitch volume ++ "\n\"" ++ jsTrim text ++ "\""

/-- The cloned-voice template literal of `generateSpeech` (lines 21-25);
`speedStr`/`pitchStr` stand for the JavaScript decimal rendering of the
interpolated numbers. -/
def clonedPrompt (text : String) (language : Language)
    (speedStr pitchStr : String) : String :=
  "Please speak the following text clearly. Match the voice, tone, and character of the provided audio sample as closely as possible. \n      Text to speak: \""
    ++ jsTrim text ++ "\"\n      Language: " ++ languageStr language
    ++ "\n      Desired Speed: " ++ speedStr ++ "x\n      Pitch Adjustment: "
    ++ pitchStr

/-! ## Backend request selection (generateSpeech, lines 19-53 and 56-111) -/

/-- The native audio model name used for cloned voices (line 20). -/
def nativeModel : String := "gemini-2.5-flash-native-audio-preview-09-2025"

/-- The prebuilt TTS model name (line 56). -/
def ttsModel : String := "gemini-2.5-flash-preview-tts"

/-- The request `generateSpeech` sends to the generative backend: either
the sample-conditioned (audio-to-audio) call carrying the cloned sample
bytes and MIME type, or the prebuilt-voice call carrying the named voice. -/
inductive BackendRequest where
  | sampleConditioned (model : String) (sampleMime : String) (sampleData : String)
      (directive : String)
  | prebuilt (model : String) (directive : String) (voiceName : String)
deriving DecidableEq

def BackendRequest.isSampleConditioned : BackendRequest → Bool
  | .sampleConditioned _ _ _ _ => true
  | .prebuilt _ _ _ => false

def BackendRequest.directive : BackendRequest → String
  | .sampleConditioned _ _ _ d => d
  | .prebuilt _ d _ => d

/-- The mode/payload decision of `generateSpeech`: the early
`if (clonedVoice)` branch issues the native-audio request with the
sample's data and MIME type, otherwise the prebuilt-TTS request with
`fullPrompt` and the voice name is issued. -/
def generateSpeechRequest (text : String) (language : Language) (accent : Accent)
    (voice : String) (speed pitch volume : ℚ) (speedStr pitchStr : String)
    (clonedVoice : Option ClonedVoice) : BackendRequest :=
  match clonedVoice with
  | some cv =>
      .sampleConditioned nativeModel cv.mimeType cv.audioData
        (clonedPrompt text language speedStr pitchStr)
  | none =>
      .prebuilt ttsModel (fullPrompt text language accent voice speed pitch volume) voice

/-! ## Response extraction (generateSpeech, lines 46-48 and 113-116) -/

/-- An inline data blob of a response part (`inlineData`); its `data`
field may be absent. -/
structure InlineBlob where
  mimeType : String
  data : Option String
deriving DecidableEq

/-- One content part of a backend response: inline audio and/or text. -/
structure ResponsePart where
  inlineData : Option InlineBlob
  text : Option String
deriving DecidableEq

/-- `parts.find(p => p.inlineData)?.inlineData?.data` (lines 46 and 114). -/
def findAudioPart (parts : List ResponsePart) : Option String :=
  ((parts.find? fun p => p.inlineData.isSome).bind fun p => p.inlineData).bind
    fun d => d.data

/-- The shared `if (!audioPart) throw new Error(noAudioMsg)` shape of both
branches: `!audioPart` is the JavaScript falsiness test, true when the
payload is absent or the empty string, so both fail with the branch's
fixed message. -/
def extractAudioData (noAudioMsg : String) (parts : List ResponsePart) :
    Except String String :=
  match findAudioPart parts with
  | some d => if d = "" then .error noAudioMsg else .ok d
  | none => .error noAudioMsg

/-- Lines 113-116 (prebuilt branch): return the first inline audio
payload, or throw the fixed message. -/
def extractPrebuiltAudio : List ResponsePart → Except String String :=
  extractAudioData "Speech engine returned no audio data."

/-- Lines 46-48 (cloned branch): same extraction with the cloned branch's
own fixed message. -/
def extractClonedAudio : List ResponsePart → Except String String :=
  extractAudioData "Voice cloning engine failed to produce audio."

/-! ## Substring helper (used to state claims about directive contents) -/

/-- `leadMatch n h` holds when the char list `n` is an initial segment of `h`. -/
def leadMatch : List Char → List Char → Bool
  | [], _ => true
  | _ :: _, [] => false
  | n :: ns, h :: hs => n == h && leadMatch ns hs

/-- `occursInChars n h`: the char list `n` occurs contiguously in `h`. -/
def occursInChars (needle : List Char) : List Char → Bool
  | [] => needle.isEmpty
  | c :: cs => leadMatch needle (c :: cs) || occursInChars needle cs

/-- String-level contiguous-substring test (models JavaScript `includes`). -/
def occursIn (needle hay : String) : Bool :=
  occursInChars needle.data hay.data

/-! ## Playback controller (src/App.tsx, lines 104-158) -/

inductive PlaybackStatus where
  | playing
  | paused
  | stopped
deriving DecidableEq

/-- The playback-relevant state of `App`: the multiset of output handles
that are scheduled and not yet stopped or completed (`active`), the
`activeSourceRef` cell (`current`), the `playbackStatus` state variable,
and a counter supplying fresh handle identities (each `play` builds a
brand-new `AudioBufferSourceNode`). -/
structure PlayerState where
  active : List Nat
  current : Option Nat
  status : PlaybackStatus
  fresh : Nat
deriving DecidableEq

/-- Initial state: no handle, stopped. -/
def initPlayer : PlayerState := ⟨[], none, .stopped, 0⟩

/-- `activeSourceRef.current?.stop()` — halting the referenced handle if
any (errors from stopping a finished handle are swallowed by the
source's `try/catch`, so this is total). -/
def stopCurrent (s : PlayerState) : PlayerState :=
  match s.current with
  | some h => { s with active := s.active.erase h }
  | none => s

/-- The caller-visible playback events of `App.tsx`. -/
inductive PlayerOp where
  | play
  | playFail
  | pause
  | resume
  | stop
  | naturalEnd
deriving DecidableEq

/-- One transition of the playback controller.
`play` is `handlePlayAudio` succeeding (lines 104-130): the prior handle
is stopped with its `onended` cleared, then a fresh handle is scheduled
and becomes current. `playFail` is its catch branch (lines 131-135).
`pause`/`resume` are `togglePauseResume` (lines 138-149), which only
suspend the output clock. `stop` is `stopPlayback` (lines 151-158).
`naturalEnd` is the `onended` callback of the current handle firing
(lines 127-130), also after an explicit `stop()` of a playing handle. -/
def step : PlayerOp → PlayerState → PlayerState
  | .play, s =>
      let s1 := stopCurrent s
      { s1 with active := s1.active ++ [s1.fresh], current := some s1.fresh,
                status := .playing, fresh := s1.fresh + 1 }
  | .playFail, s =>
      let s1 := stopCurrent s
      { s1 with status := .stopped }
  | .pause, s => if s.status = .playing then { s with status := .paused } else s
  | .resume, s => if s.status = .paused then { s with status := .playing } else s
  | .stop, s => { stopCurrent s with status := .stopped }
  | .naturalEnd, s =>
      match s.current with
      | some h => { s with active := s.active.erase h, current := none,
                           status := .stopped }
      | none => s

/-- Run a sequence of playback events from the initial state. -/
def run (ops : List PlayerOp) : PlayerState :=
  ops.foldl (fun s o => step o s) initPlayer

/-- State invariant of the playback controller: every scheduled,
unstopped handle is the current one (so there is at most one), and the
current handle predates the fresh counter. -/
def PlayerInv (s : PlayerState) : Prop :=
  (s.active = [] ∨ ∃ h, s.current = some h ∧ s.active = [h]) ∧
  (∀ h, s.current = some h → h < s.fresh)

/-! ## History and generateTTS (src/App.tsx, lines 160-199) -/

/-- `TTSHistoryItem` from `src/types.ts`. -/
structure TTSHistoryItem where
  id : String
  text : String
  language : Language
  accent : Accent
  voice : String
  speed : ℚ
  pitch : ℚ
  volume : ℚ
  timestamp : Int
  audioData : Option String
deriving DecidableEq

/-- `setHistory(prev => [newItem, ...prev].slice(0, 20))` (line 186). -/
def updateHistory (item : TTSHistoryItem) (prev : List TTSHistoryItem) :
    List TTSHistoryItem :=
  (item :: prev).take 20

/-- The slice of `App` state read and written by `generateTTS`. -/
structure AppState where
  text : String
  language : Language
  accent : Accent
  voice : String
  speed : ℚ
  pitch : ℚ
  volume : ℚ
  isLoading : Bool
  history : List TTSHistoryItem
  error : Option String
  lastAudioData : Option String
  playbackStatus : PlaybackStatus
deriving DecidableEq

/-- The catch branch of `generateTTS` (lines 188-195): permission-style
messages get the fixed API-key message, an empty message gets the fixed
fallback, anything else is surfaced verbatim. -/
def classifyGenError (msg : String) : String :=
  if occursIn "permission" msg || occursIn "403" msg || occursIn "not found" msg then
    "API permission error. Please ensure you have a valid paid API key selected."
  else if msg = "" then "Failed to generate speech. Check your connection or API key."
  else msg

/-- `generateTTS` (lines 160-199) as a state transition. The backend
round-trip is abstracted as its outcome `backend`; `newId` and `now`
stand for `crypto.randomUUID()` and `Date.now()`; `playOk` is whether
the auto-play `handlePlayAudio` call succeeds. The returned boolean
records whether the backend was called at all. The blank-text test uses
`jsTrim`, matching the JavaScript `!text.trim()` falsiness check
(empty after trimming whitespace). -/
def generateTTS (s : AppState) (newId : String) (now : Int)
    (backend : Except String String) (playOk : Bool) : AppState × Bool :=
  if jsTrim s.text = "" then
    ({ s with error := some "Please enter some text first." }, false)
  else
    match backend with
    | .ok audio =>
        let newItem : TTSHistoryItem :=
          ⟨newId, s.text, s.language, s.accent, s.voice, s.speed, s.pitch,
            s.volume, now, some audio⟩
        let s1 := { s with error := none, lastAudioData := some audio,
                           history := updateHistory newItem s.history }
        let s2 :=
          if playOk then { s1 with playbackStatus := .playing }
          else { s1 with playbackStatus := .stopped,
                         error := some "Playback failed. Please try again." }
        ({ s2 with isLoading := false }, true)
    | .error msg =>
        ({ s with error := some (classifyGenError msg), isLoading := false }, true)

/-! ## WAV container (the missing `src/utils/audioUtils.ts`) -/

/-- Little-endian 32-bit encoding of a natural number, as four bytes. -/
def u32le (n : Nat) : List Nat :=
  [n % 256, n / 256 % 256, n / 65536 % 256, n / 16777216 % 256]

/-- Little-endian 16-bit encoding of a natural number, as two bytes. -/
def u16le (n : Nat) : List Nat :=
  [n % 256, n / 256 % 256]

/-- ASCII bytes of a tag string. -/
def asciiBytes (s : String) : List Nat :=
  s.data.map Char.toNat

/-- Read four bytes at offset `off` as a little-endian 32-bit value. -/
def readU32le (bytes : List Nat) (off : Nat) : Nat :=
  match bytes.drop off with
  | a :: b :: c :: d :: _ => a + 256 * (b + 256 * (c + 256 * d))
  | _ => 0

/-- Modelled from the spec: the standard 44-byte RIFF/WAVE header built
by the `pcmToWavBlob` helper of `src/utils/audioUtils.ts`, a file that is
imported by `App.tsx` and `HistoryList.tsx` but absent from `src/`.
Per spec §4.1: RIFF chunk size `36 + dataLen`, `fmt ` sub-chunk of size
16 with PCM format code 1, byte rate `sampleRate*channels*bitsPerSample/8`,
block align `channels*bitsPerSample/8`, and a `data` sub-chunk of size
`dataLen`. -/
def wavHeader (sampleRate bitsPerSample channels dataLen : Nat) : List Nat :=
  asciiBytes "RIFF" ++ u32le (36 + dataLen) ++ asciiBytes "WAVE"
    ++ asciiBytes "fmt " ++ u32le 16 ++ u16le 1 ++ u16le channels
    ++ u32le sampleRate ++ u32le (sampleRate * channels * bitsPerSample / 8)
    ++ u16le (channels * bitsPerSample / 8) ++ u16le bitsPerSample
    ++ asciiBytes "data" ++ u32le dataLen

/-- Modelled from the spec: `pcmToWavBlob` from the missing
`src/utils/audioUtils.ts` — prepends the 44-byte header at the fixed
24,000 Hz, 16-bit, mono layout and appends the PCM payload verbatim
(spec §4.1 `toWavContainer`). -/
def pcmToWavBlob (pcm : List Nat) : List Nat :=
  wavHeader 24000 16 1 pcm.length ++ pcm

/-! ## Helper lemmas -/

/-- A two-element suffix of a list ending in `c` ends in `c`. -/
lemma pair_suffix_last {α : Type} {x y c : α} {l : List α}
    (h : [x, y] <:+ l ++ [c]) : y = c := by
  obtain ⟨t, ht⟩ := h
  have h1 := congrArg List.getLast? ht
  rw [List.getLast?_concat] at h1
  rw [show t ++ [x, y] = (t ++ [x]) ++ [y] by simp, List.getLast?_concat] at h1
  exact Option.some.inj h1

/-- The audio instruction always ends with a period. -/
lemma audioInstruction_ends_dot (a : Accent) (s p v : ℚ) :
    ∃ l, (audioInstruction a s p v).data = l ++ ['.'] := by
  refine ⟨("Speak " ++ speedDesc s ++ ", " ++ pitchDesc p ++ ", and "
    ++ volDesc a v).data, ?_⟩
  rw [audioInstruction]
  rw [String.data_append]

/-! ## C2: the volume-threshold ladder -/

/-- C2 counterexample: the claim says volume 0.5 yields "quietly", but the
code's ladder has no such tier — `volDesc` at a non-Whisper accent and
volume 0.5 is the standard-volume phrase, not "quietly". -/
theorem volume_quietly_counterexample :
    volDesc Accent.NEUTRAL (mkRat 5 10) = "at a standard volume"
    ∧ volDesc Accent.NEUTRAL (mkRat 5 10) ≠ "quietly" := by
  decide

/-- C2 (amended): for a non-Whisper accent the loudness phrase is chosen by
the two-threshold ladder of the code — volume ≥ 0.9 yields
"loudly and powerfully", volume ≤ 0.4 yields "softly, almost in a whisper",
and any volume strictly between 0.4 and 0.9 (0.5 included) yields the
standard-volume phrase; there is no "quietly" tier. -/
theorem volume_ladder (a : Accent) (v : ℚ) (ha : a ≠ Accent.WHISPER) :
    (mkRat 9 10 ≤ v → volDesc a v = "loudly and powerfully")
    ∧ (v < mkRat 9 10 → v ≤ mkRat 4 10 → volDesc a v = "softly, almost in a whisper")
    ∧ (mkRat 4 10 < v → v < mkRat 9 10 → volDesc a v = "at a standard volume") := by
  refine ⟨fun h => ?_, fun h1 h2 => ?_, fun h1 h2 => ?_⟩
  · rw [volDesc, if_neg ha, if_pos h]
  · rw [volDesc, if_neg ha, if_neg (not_le.mpr h1), if_pos h2]
  · rw [volDesc, if_neg ha, if_neg (not_le.mpr h2), if_neg (not_le.mpr h1)]

/-- Witness for `volume_ladder` at accent Neutral and volume 0.95. -/
theorem volume_ladder_witness :
    Accent.NEUTRAL ≠ Accent.WHISPER
    ∧ volDesc Accent.NEUTRAL (mkRat 95 100) = "loudly and powerfully" :=
  ⟨by decide, (volume_ladder Accent.NEUTRAL (mkRat 95 100) (by decide)).1 (by decide)⟩

/-! ## C3: the pace-threshold ladder -/

/-- C3: for every speed, the pace phrase follows the code's ordered
threshold ladder, with exact `<=` boundaries — speed 0.6 still yields
"very slowly" while 0.61 yields "slowly". -/
theorem pace_ladder (s : ℚ) :
    (s ≤ mkRat 6 10 → speedDesc s = "very slowly")
    ∧ (mkRat 6 10 < s → s ≤ mkRat 8 10 → speedDesc s = "slowly")
    ∧ (mkRat 17 10 ≤ s → speedDesc s = "very quickly")
    ∧ (mkRat 13 10 ≤ s → s < mkRat 17 10 → speedDesc s = "quickly")
    ∧ (mkRat 8 10 < s → s < mkRat 13 10 → speedDesc s = "at a normal pace")
    ∧ speedDesc (mkRat 6 10) = "very slowly"
    ∧ speedDesc (mkRat 61 100) = "slowly" := by
  refine ⟨fun h => ?_, fun h1 h2 => ?_, fun h => ?_, fun h1 h2 => ?_,
    fun h1 h2 => ?_, by decide, by decide⟩
  · rw [speedDesc, if_pos h]
  · rw [speedDesc, if_neg (not_le.mpr h1), if_pos h2]
  · have h6 : ¬ s ≤ mkRat 6 10 :=
      not_le.mpr (lt_of_lt_of_le (by decide : mkRat 6 10 < mkRat 17 10) h)
    have h8 : ¬ s ≤ mkRat 8 10 :=
      not_le.mpr (lt_of_lt_of_le (by decide : mkRat 8 10 < mkRat 17 10) h)
    rw [speedDesc, if_neg h6, if_neg h8, if_pos h]
  · have h6 : ¬ s ≤ mkRat 6 10 :=
      not_le.mpr (lt_of_lt_of_le (by decide : mkRat 6 10 < mkRat 13 10) h1)
    have h8 : ¬ s ≤ mkRat 8 10 :=
      not_le.mpr (lt_of_lt_of_le (by decide : mkRat 8 10 < mkRat 13 10) h1)
    rw [speedDesc, if_neg h6, if_neg h8, if_neg (not_le.mpr h2), if_pos h1]
  · have h6 : ¬ s ≤ mkRat 6 10 :=
      not_le.mpr (lt_of_le_of_lt (by decide : mkRat 6 10 ≤ mkRat 8 10) h1)
    have h17 : ¬ mkRat 17 10 ≤ s :=
      not_le.mpr (lt_of_lt_of_le h2 (by decide : mkRat 13 10 ≤ mkRat 17 10))
    rw [speedDesc, if_neg h6, if_neg (not_le.mpr h1), if_neg h17,
      if_neg (not_le.mpr h2)]

/-- Witness for `pace_ladder` at speed 0.5. -/
theorem pace_ladder_witness :
    mkRat 1 2 ≤ mkRat 6 10 ∧ speedDesc (mkRat 1 2) = "very slowly" :=
  ⟨by decide, (pace_ladder (mkRat 1 2)).1 (by decide)⟩

/-! ## C1: cloned sample with Whisper accent and volume 0.9 -/

/-- C1 counterexample: at a concrete cloned-voice request with accent
Whisper and volume 0.9 the backend mode is indeed SampleConditioned, but
the directive contains no "hushed whisper" loudness phrase — the
cloned-voice branch returns before any loudness phrase is built. -/
theorem cloned_whisper_loudness_counterexample :
    (generateSpeechRequest "Hello" Language.ENGLISH Accent.WHISPER "Kore" 1 1
        (mkRat 9 10) "1" "1"
        (some ⟨"cv1", "My Voice", "QUJD", "audio/webm", 0⟩)).isSampleConditioned = true
    ∧ occursIn "hushed whisper"
        ((generateSpeechRequest "Hello" Language.ENGLISH Accent.WHISPER "Kore" 1 1
          (mkRat 9 10) "1" "1"
          (some ⟨"cv1", "My Voice", "QUJD", "audio/webm", 0⟩)).directive) = false := by
  decide

/-- C1 (amended): whenever the voice selector references a cloned sample,
the backend mode is SampleConditioned and the directive is the
cloned-sample prompt, which carries no loudness phrase at all — the
accent and volume do not influence the request in any way. -/
theorem cloned_request_ignores_loudness (text : String) (language : Language)
    (accent : Accent) (voice : String) (speed pitch volume : ℚ)
    (speedStr pitchStr : String) (cv : ClonedVoice) :
    (generateSpeechRequest text language accent voice speed pitch volume
        speedStr pitchStr (some cv)).isSampleConditioned = true
    ∧ generateSpeechRequest text language accent voice speed pitch volume
        speedStr pitchStr (some cv)
      = .sampleConditioned nativeModel cv.mimeType cv.audioData
          (clonedPrompt text language speedStr pitchStr)
    ∧ (∀ (accent2 : Accent) (volume2 : ℚ),
        generateSpeechRequest text language accent2 voice speed pitch volume2
            speedStr pitchStr (some cv)
          = generateSpeechRequest text language accent voice speed pitch volume
              speedStr pitchStr (some cv)) :=
  ⟨rfl, rfl, fun _ _ => rfl⟩

/-! ## C4: style-prefix suppression for the regional-accent branch -/

/-- C4: for English with the Telugu regional accent the directive is the
regional frame followed only by the audio instruction — no style prefix
is appended, and in particular the directive does not end in the ": "
that terminates every non-empty style prefix; for English with any other
accent, and for Telugu and Mixed, the style prefix is appended to the
directive; the five styled accents all map to non-empty prefixes. -/
theorem regional_accent_suppresses_style (voice : String) (speed pitch volume : ℚ) :
    instruction Language.ENGLISH Accent.TELUGU_ACCENT voice speed pitch volume
      = "As " ++ voiceLabel voice
          ++ ", read this English text with a natural, clear Telugu regional accent. "
          ++ audioInstruction Accent.TELUGU_ACCENT speed pitch volume
    ∧ ¬ ((": ").data <:+
          (instruction Language.ENGLISH Accent.TELUGU_ACCENT voice speed pitch volume).data)
    ∧ (∀ a : Accent, a ≠ Accent.TELUGU_ACCENT →
        (styleDesc a).data <:+ (instruction Language.ENGLISH a voice speed pitch volume).data)
    ∧ (∀ a : Accent,
        (styleDesc a).data <:+ (instruction Language.TELUGU a voice speed pitch volume).data)
    ∧ (∀ a : Accent,
        (styleDesc a).data <:+ (instruction Language.MIXED a voice speed pitch volume).data)
    ∧ styleDesc Accent.CHEERFUL ≠ "" ∧ styleDesc Accent.FORMAL ≠ ""
    ∧ styleDesc Accent.ROMANTIC ≠ "" ∧ styleDesc Accent.PODCAST ≠ ""
    ∧ styleDesc Accent.WHISPER ≠ "" := by
  refine ⟨rfl, ?_, ?_, ?_, ?_, by decide, by decide, by decide, by decide, by decide⟩
  · intro hsuf
    obtain ⟨l, hl⟩ := audioInstruction_ends_dot Accent.TELUGU_ACCENT speed pitch volume
    have hdata : (instruction Language.ENGLISH Accent.TELUGU_ACCENT voice speed
        pitch volume).data
        = (("As " ++ voiceLabel voice
            ++ ", read this English text with a natural, clear Telugu regional accent. ").data
            ++ l) ++ ['.'] := by
      show (("As " ++ voiceLabel voice
        ++ ", read this English text with a natural, clear Telugu regional accent. ")
        ++ audioInstruction Accent.TELUGU_ACCENT speed pitch volume).data = _
      rw [String.data_append, hl, List.append_assoc]
    rw [hdata] at hsuf
    have : (' ' : Char) = '.' := pair_suffix_last hsuf
    exact absurd this (by decide)
  · intro a ha
    have hinstr : instruction Language.ENGLISH a voice speed pitch volume
        = ("As " ++ voiceLabel voice ++ ", read this English text. "
            ++ audioInstruction a speed pitch volume ++ " ") ++ styleDesc a := by
      simp only [instruction]
      rw [if_neg ha]
    rw [hinstr, String.data_append]
    exact List.suffix_append _ _
  · intro a
    rw [show instruction Language.TELUGU a voice speed pitch volume
        = ("As " ++ voiceLabel voice ++ ", read this Telugu text clearly. "
            ++ audioInstruction a speed pitch volume ++ " ") ++ styleDesc a from rfl,
      String.data_append]
    exact List.suffix_append _ _
  · intro a
    rw [show instruction Language.MIXED a voice speed pitch volume
        = ("As " ++ voiceLabel voice ++ ", read this mixed text naturally. "
            ++ audioInstruction a speed pitch volume ++ " ") ++ styleDesc a from rfl,
      String.data_append]
    exact List.suffix_append _ _

/-- Witness for `regional_accent_suppresses_style`: the Cheerful accent is
distinct from the regional accent and its prefix ends the English directive. -/
theorem regional_accent_suppresses_style_witness :
    Accent.CHEERFUL ≠ Accent.TELUGU_ACCENT
    ∧ (styleDesc Accent.CHEERFUL).data <:+
        (instruction Language.ENGLISH Accent.CHEERFUL "Kore" 1 1 1).data :=
  ⟨by decide,
   (regional_accent_suppresses_style "Kore" 1 1 1).2.2.1 Accent.CHEERFUL (by decide)⟩

/-! ## C5: backend mode selection -/

/-- C5: the request is SampleConditioned exactly when a cloned sample is
supplied — it then carries the sample's MIME type and encoded bytes
alongside the cloned-sample directive — and otherwise is the Prebuilt
request carrying the compiled directive and the chosen voice name;
the two modes are the only constructors, so never both and never neither. -/
theorem backend_mode_selection (text : String) (language : Language)
    (accent : Accent) (voice : String) (speed pitch volume : ℚ)
    (speedStr pitchStr : String) (clonedVoice : Option ClonedVoice) :
    ((generateSpeechRequest text language accent voice speed pitch volume
        speedStr pitchStr clonedVoice).isSampleConditioned = clonedVoice.isSome)
    ∧ (∀ cv, clonedVoice = some cv →
        generateSpeechRequest text language accent voice speed pitch volume
            speedStr pitchStr clonedVoice
          = .sampleConditioned nativeModel cv.mimeType cv.audioData
              (clonedPrompt text language speedStr pitchStr))
    ∧ (clonedVoice = none →
        generateSpeechRequest text language accent voice speed pitch volume
            speedStr pitchStr clonedVoice
          = .prebuilt ttsModel
              (fullPrompt text language accent voice speed pitch volume) voice) := by
  cases clonedVoice with
  | none =>
      refine ⟨rfl, ?_, fun _ => rfl⟩
      intro cv h
      cases h
  | some cv =>
      refine ⟨rfl, ?_, ?_⟩
      · intro cv2 h
        cases h
        rfl
      · intro h
        cases h

/-- Witness for `backend_mode_selection` in both modes. -/
theorem backend_mode_selection_witness :
    generateSpeechRequest "hi" Language.TELUGU Accent.NEUTRAL "Puck" 1 1 1 "1" "1"
        (some ⟨"id", "n", "QQ==", "audio/wav", 0⟩)
      = .sampleConditioned nativeModel "audio/wav" "QQ=="
          (clonedPrompt "hi" Language.TELUGU "1" "1")
    ∧ generateSpeechRequest "hi" Language.TELUGU Accent.NEUTRAL "Puck" 1 1 1 "1" "1" none
      = .prebuilt ttsModel (fullPrompt "hi" Language.TELUGU Accent.NEUTRAL "Puck" 1 1 1)
          "Puck" :=
  ⟨(backend_mode_selection "hi" Language.TELUGU Accent.NEUTRAL "Puck" 1 1 1 "1" "1"
      (some ⟨"id", "n", "QQ==", "audio/wav", 0⟩)).2.1 _ rfl,
   (backend_mode_selection "hi" Language.TELUGU Accent.NEUTRAL "Puck" 1 1 1 "1" "1"
      none).2.2 rfl⟩

/-! ## C6: no-audio failure handling -/

/-- C6 counterexample: a response carrying only explanatory text fails
with the fixed message — the explanatory text is not surfaced as the
failure detail, contrary to the claim. -/
theorem no_audio_text_not_surfaced :
    extractPrebuiltAudio [⟨none, some "Model overloaded, please retry."⟩]
      = .error "Speech engine returned no audio data."
    ∧ occursIn "Model overloaded" "Speech engine returned no audio data." = false :=
  ⟨rfl, by decide⟩

/-- A part whose inline blob is present is found first when everything
before it has no inline blob. -/
lemma find_first_inline (q : ResponsePart) (post : List ResponsePart)
    (hq : q.inlineData.isSome = true) :
    ∀ pre : List ResponsePart, (∀ p ∈ pre, p.inlineData = none) →
      (pre ++ q :: post).find? (fun p => p.inlineData.isSome) = some q := by
  intro pre
  induction pre with
  | nil =>
      intro _
      simp [List.find?_cons_of_pos, hq]
  | cons a as ih =>
      intro hpre
      have ha : a.inlineData = none := hpre a (List.mem_cons_self a as)
      have htail := ih (fun p hp => hpre p (List.mem_cons_of_mem a hp))
      rw [List.cons_append, List.find?_cons_of_neg _ (by simp [ha])]
      exact htail

/-- C6 (amended): when the backend response holds no inline audio part —
or only an empty-string payload, which the JavaScript falsiness test
treats as absent — the dispatcher fails with its branch's fixed message:
"Speech engine returned no audio data." for prebuilt dispatches and
"Voice cloning engine failed to produce audio." for sample-conditioned
dispatches; any explanatory text in the response is ignored, not
surfaced. When an inline audio part with a non-empty payload is present,
the payload of the first such part is returned in both modes. -/
theorem no_audio_error_fixed (parts : List ResponsePart) :
    ((∀ p ∈ parts, p.inlineData = none) →
        extractPrebuiltAudio parts = .error "Speech engine returned no audio data."
        ∧ extractClonedAudio parts = .error "Voice cloning engine failed to produce audio.")
    ∧ (∀ (pre : List ResponsePart) (q : ResponsePart) (post : List ResponsePart)
        (mime d : String),
        parts = pre ++ q :: post →
        (∀ p ∈ pre, p.inlineData = none) →
        q.inlineData = some ⟨mime, some d⟩ →
        d ≠ "" →
        extractPrebuiltAudio parts = .ok d ∧ extractClonedAudio parts = .ok d)
    ∧ (∀ (pre : List ResponsePart) (q : ResponsePart) (post : List ResponsePart)
        (mime : String),
        parts = pre ++ q :: post →
        (∀ p ∈ pre, p.inlineData = none) →
        q.inlineData = some ⟨mime, some ""⟩ →
        extractPrebuiltAudio parts = .error "Speech engine returned no audio data."
        ∧ extractClonedAudio parts = .error "Voice cloning engine failed to produce audio.") := by
  refine ⟨?_, ?_, ?_⟩
  · intro hall
    have hfind : parts.find? (fun p => p.inlineData.isSome) = none := by
      rw [List.find?_eq_none]
      intro x hx
      simp [hall x hx]
    constructor <;>
      simp [extractPrebuiltAudio, extractClonedAudio, extractAudioData,
        findAudioPart, hfind]
  · intro pre q post mime d hparts hpre hq hd
    subst hparts
    have hfind := find_first_inline q post (by simp [hq]) pre hpre
    constructor <;>
      simp [extractPrebuiltAudio, extractClonedAudio, extractAudioData,
        findAudioPart, hfind, hq, hd]
  · intro pre q post mime hparts hpre hq
    subst hparts
    have hfind := find_first_inline q post (by simp [hq]) pre hpre
    constructor <;>
      simp [extractPrebuiltAudio, extractClonedAudio, extractAudioData,
        findAudioPart, hfind, hq]

/-- Witness for `no_audio_error_fixed`: the two fixed errors on a
text-only response, extraction of the first non-empty inline payload,
and the falsy empty-string payload failing like a missing one. -/
theorem no_audio_error_fixed_witness :
    extractPrebuiltAudio [⟨none, some "hi"⟩]
      = .error "Speech engine returned no audio data."
    ∧ extractClonedAudio [⟨none, some "hi"⟩]
      = .error "Voice cloning engine failed to produce audio."
    ∧ extractPrebuiltAudio [⟨none, some "hi"⟩, ⟨some ⟨"audio/pcm", some "QUJD"⟩, none⟩]
      = .ok "QUJD"
    ∧ extractPrebuiltAudio [⟨some ⟨"audio/pcm", some ""⟩, none⟩]
      = .error "Speech engine returned no audio data." :=
  ⟨((no_audio_error_fixed [⟨none, some "hi"⟩]).1 (by decide)).1,
   ((no_audio_error_fixed [⟨none, some "hi"⟩]).1 (by decide)).2,
   ((no_audio_error_fixed [⟨none, some "hi"⟩, ⟨some ⟨"audio/pcm", some "QUJD"⟩, none⟩]).2.1
     [⟨none, some "hi"⟩] ⟨some ⟨"audio/pcm", some "QUJD"⟩, none⟩ [] "audio/pcm" "QUJD"
     rfl (by decide) rfl (by decide)).1,
   ((no_audio_error_fixed [⟨some ⟨"audio/pcm", some ""⟩, none⟩]).2.2
     [] ⟨some ⟨"audio/pcm", some ""⟩, none⟩ [] "audio/pcm"
     rfl (by decide) rfl).1⟩

/-! ## C7: single-flight playback -/

lemma playerInv_init : PlayerInv initPlayer := by
  constructor
  · left; rfl
  · intro h hh
    simp [initPlayer] at hh

/-- Stopping the referenced handle leaves no scheduled, unstopped handle. -/
lemma stopCurrent_active_nil {s : PlayerState} (hs : PlayerInv s) :
    (stopCurrent s).active = [] := by
  rcases hs.1 with h0 | ⟨h, hc, ha⟩
  · unfold stopCurrent
    cases s.current <;> simp [h0]
  · simp [stopCurrent, hc, ha]

lemma stopCurrent_current (s : PlayerState) : (stopCurrent s).current = s.current := by
  cases hc : s.current <;> simp [stopCurrent, hc]

lemma stopCurrent_fresh (s : PlayerState) : (stopCurrent s).fresh = s.fresh := by
  cases hc : s.current <;> simp [stopCurrent, hc]

lemma playerInv_step (o : PlayerOp) (s : PlayerState) (hs : PlayerInv s) :
    PlayerInv (step o s) := by
  cases o
  case play =>
      have hnil := stopCurrent_active_nil hs
      have hact : (step PlayerOp.play s).active
          = (stopCurrent s).active ++ [(stopCurrent s).fresh] := rfl
      have hcur : (step PlayerOp.play s).current = some (stopCurrent s).fresh := rfl
      have hfr : (step PlayerOp.play s).fresh = (stopCurrent s).fresh + 1 := rfl
      refine ⟨Or.inr ⟨(stopCurrent s).fresh, hcur, ?_⟩, ?_⟩
      · rw [hact, hnil]
        rfl
      · intro h hh
        rw [hcur] at hh
        rw [hfr, ← Option.some.inj hh]
        exact Nat.lt_succ_self _
  case playFail =>
      have hnil := stopCurrent_active_nil hs
      refine ⟨Or.inl hnil, ?_⟩
      intro h hh
      rw [show (step PlayerOp.playFail s).current = (stopCurrent s).current from rfl,
        stopCurrent_current] at hh
      rw [show (step PlayerOp.playFail s).fresh = (stopCurrent s).fresh from rfl,
        stopCurrent_fresh]
      exact hs.2 h hh
  case pause =>
      simp only [step]
      split
      · exact ⟨hs.1, hs.2⟩
      · exact hs
  case resume =>
      simp only [step]
      split
      · exact ⟨hs.1, hs.2⟩
      · exact hs
  case stop =>
      have hnil := stopCurrent_active_nil hs
      refine ⟨Or.inl hnil, ?_⟩
      intro h hh
      rw [show (step PlayerOp.stop s).current = (stopCurrent s).current from rfl,
        stopCurrent_current] at hh
      rw [show (step PlayerOp.stop s).fresh = (stopCurrent s).fresh from rfl,
        stopCurrent_fresh]
      exact hs.2 h hh
  case naturalEnd =>
      cases hc : s.current with
      | none =>
          have : step PlayerOp.naturalEnd s = s := by
            simp [step, hc]
          rw [this]
          exact hs
      | some h =>
          have hact : (step PlayerOp.naturalEnd s).active = s.active.erase h := by
            simp [step, hc]
          have hcur : (step PlayerOp.naturalEnd s).current = none := by
            simp [step, hc]
          refine ⟨Or.inl ?_, ?_⟩
          · rw [hact]
            rcases hs.1 with h0 | ⟨h2, hc2, ha⟩
            · rw [h0]
              rfl
            · rw [hc] at hc2
              cases Option.some.inj hc2
              rw [ha]
              exact List.erase_cons_head h []
          · intro h2 hh
            rw [hcur] at hh
            cases hh

lemma playerInv_foldl (ops : List PlayerOp) :
    ∀ s : PlayerState, PlayerInv s → PlayerInv (ops.foldl (fun t o => step o t) s) := by
  induction ops with
  | nil => exact fun s hs => hs
  | cons o os ih => exact fun s hs => ih _ (playerInv_step o s hs)

lemma playerInv_run (ops : List PlayerOp) : PlayerInv (run ops) :=
  playerInv_foldl ops initPlayer playerInv_init

/-- C7: after any sequence of playback events, at most one output handle
is scheduled and unstopped; a further play request forcibly removes the
prior handle and schedules exactly one fresh handle; and a stop request
issued when the handle was already released by natural completion only
sets the status to Stopped — a no-op on the handles, not an error. -/
theorem playback_single_flight (ops : List PlayerOp) :
    (run ops).active.length ≤ 1
    ∧ (step PlayerOp.play (run ops)).active = [(run ops).fresh]
    ∧ (∀ h, (run ops).current = some h → h ∉ (step PlayerOp.play (run ops)).active)
    ∧ ((run ops).current = none →
        step PlayerOp.stop (run ops) = { run ops with status := .stopped }) := by
  have hs := playerInv_run ops
  have hnil := stopCurrent_active_nil hs
  have hact : (step PlayerOp.play (run ops)).active = [(run ops).fresh] := by
    simp [step, hnil, stopCurrent_fresh]
  refine ⟨?_, hact, ?_, ?_⟩
  · rcases hs.1 with h0 | ⟨h, _, ha⟩
    · simp [h0]
    · simp [ha]
  · intro h hh
    rw [hact]
    have hlt := hs.2 h hh
    simp only [List.mem_singleton]
    exact Nat.ne_of_lt hlt
  · intro hnone
    simp [step, stopCurrent, hnone]

/-- Witness for `playback_single_flight`: after a play, the prior handle 0
is evicted by a second play; after a play followed by natural completion,
stop only sets the status. -/
theorem playback_single_flight_witness :
    (0 ∉ (step PlayerOp.play (run [PlayerOp.play])).active)
    ∧ (step PlayerOp.stop (run [PlayerOp.play, PlayerOp.naturalEnd])
        = { run [PlayerOp.play, PlayerOp.naturalEnd] with status := .stopped }) :=
  ⟨(playback_single_flight [PlayerOp.play]).2.2.1 0 (by decide),
   (playback_single_flight [PlayerOp.play, PlayerOp.naturalEnd]).2.2.2 (by decide)⟩

/-! ## C8: WAV container layout and round-trip -/

lemma asciiBytes_RIFF : asciiBytes "RIFF" = [82, 73, 70, 70] := rfl

lemma asciiBytes_WAVE : asciiBytes "WAVE" = [87, 65, 86, 69] := rfl

lemma asciiBytes_fmt : asciiBytes "fmt " = [102, 109, 116, 32] := rfl

lemma asciiBytes_data : asciiBytes "data" = [100, 97, 116, 97] := rfl

/-- C8: the produced container is the 44-byte header followed by the PCM
payload verbatim; the declared RIFF chunk size (little-endian at offset 4)
is `36 + len`, the `data` sub-chunk size (offset 40) is `len` exactly;
dropping the 44 header bytes recovers the payload byte-for-byte; and the
conversion is deterministic, so two calls on the same input agree. -/
theorem wav_container_layout (pcm : List Nat) (hlen : 36 + pcm.length < 4294967296) :
    (wavHeader 24000 16 1 pcm.length).length = 44
    ∧ pcmToWavBlob pcm = wavHeader 24000 16 1 pcm.length ++ pcm
    ∧ readU32le (pcmToWavBlob pcm) 4 = 36 + pcm.length
    ∧ readU32le (pcmToWavBlob pcm) 40 = pcm.length
    ∧ (pcmToWavBlob pcm).drop 44 = pcm
    ∧ pcmToWavBlob pcm = pcmToWavBlob pcm := by
  refine ⟨?_, rfl, ?_, ?_, ?_, rfl⟩
  · simp [wavHeader, u32le, u16le, asciiBytes_RIFF, asciiBytes_WAVE,
      asciiBytes_fmt, asciiBytes_data]
  · simp only [pcmToWavBlob, wavHeader, u32le, u16le, asciiBytes_RIFF,
      asciiBytes_WAVE, asciiBytes_fmt, asciiBytes_data, List.cons_append,
      List.nil_append, readU32le, List.drop_succ_cons, List.drop_zero]
    omega
  · simp only [pcmToWavBlob, wavHeader, u32le, u16le, asciiBytes_RIFF,
      asciiBytes_WAVE, asciiBytes_fmt, asciiBytes_data, List.cons_append,
      List.nil_append, readU32le, List.drop_succ_cons, List.drop_zero]
    omega
  · simp only [pcmToWavBlob, wavHeader, u32le, u16le, asciiBytes_RIFF,
      asciiBytes_WAVE, asciiBytes_fmt, asciiBytes_data, List.cons_append,
      List.nil_append, List.drop_succ_cons, List.drop_zero]

/-- Witness for `wav_container_layout` on a 4-byte payload. -/
theorem wav_container_layout_witness :
    36 + ([1, 2, 3, 4] : List Nat).length < 4294967296
    ∧ readU32le (pcmToWavBlob [1, 2, 3, 4]) 40 = ([1, 2, 3, 4] : List Nat).length
    ∧ (pcmToWavBlob [1, 2, 3, 4]).drop 44 = [1, 2, 3, 4] :=
  ⟨by decide, (wav_container_layout [1, 2, 3, 4] (by decide)).2.2.2.1,
   (wav_container_layout [1, 2, 3, 4] (by decide)).2.2.2.2.1⟩

/-! ## C9: history capped at 20, newest first -/

/-- C9: after a successful synthesis the history is the new item prepended
to the previous list, truncated to 20 entries — so it never exceeds 20
items, the new item is at the front, a list that was below the cap is
kept whole, and a full list drops exactly its oldest (last) entry; the
success path of `generateTTS` performs exactly this update. -/
theorem history_capped (item : TTSHistoryItem) (prev : List TTSHistoryItem) :
    (updateHistory item prev).length ≤ 20
    ∧ (updateHistory item prev).head? = some item
    ∧ (prev.length < 20 → updateHistory item prev = item :: prev)
    ∧ (prev.length = 20 → updateHistory item prev = item :: prev.dropLast)
    ∧ (∀ (s : AppState) (newId : String) (now : Int) (audio : String) (playOk : Bool),
        jsTrim s.text ≠ "" →
        ((generateTTS s newId now (.ok audio) playOk).1).history
          = updateHistory
              ⟨newId, s.text, s.language, s.accent, s.voice, s.speed, s.pitch,
                s.volume, now, some audio⟩ s.history) := by
  refine ⟨?_, ?_, ?_, ?_, ?_⟩
  · rw [updateHistory, List.length_take]
    exact min_le_left _ _
  · rw [updateHistory, show (20 : Nat) = 19 + 1 from rfl, List.take_succ_cons]
    rfl
  · intro hlt
    rw [updateHistory]
    apply List.take_of_length_le
    simp only [List.length_cons]
    omega
  · intro h20
    rw [updateHistory, show (20 : Nat) = 19 + 1 from rfl, List.take_succ_cons,
      List.dropLast_eq_take, h20]
  · intro s newId now audio playOk hne
    cases playOk <;> simp [generateTTS, hne]

/-- Witness for `history_capped`: a below-cap update and the success path
of `generateTTS` on concrete state. -/
theorem history_capped_witness :
    ((generateTTS ⟨"hi", .ENGLISH, .NEUTRAL, "Kore", 1, 1, 1, false, [], none, none,
        .stopped⟩ "id0" 0 (.ok "AAAA") true).1).history
      = updateHistory
          ⟨"id0", "hi", .ENGLISH, .NEUTRAL, "Kore", 1, 1, 1, 0, some "AAAA"⟩ []
    ∧ updateHistory ⟨"id0", "hi", .ENGLISH, .NEUTRAL, "Kore", 1, 1, 1, 0, some "AAAA"⟩ []
      = [⟨"id0", "hi", .ENGLISH, .NEUTRAL, "Kore", 1, 1, 1, 0, some "AAAA"⟩] :=
  ⟨(history_capped ⟨"id0", "hi", .ENGLISH, .NEUTRAL, "Kore", 1, 1, 1, 0, some "AAAA"⟩
      []).2.2.2.2 _ "id0" 0 "AAAA" true (by decide),
   (history_capped ⟨"id0", "hi", .ENGLISH, .NEUTRAL, "Kore", 1, 1, 1, 0, some "AAAA"⟩
      []).2.2.1 (by decide)⟩

/-! ## C10: blank input returns early -/

/-- C10: when the input text is empty or whitespace-only (its trim is
empty), `generateTTS` returns immediately with the fixed error message,
does not call the backend, and leaves the history, the last audio
payload and the playback status untouched. -/
theorem blank_text_early_return (s : AppState) (newId : String) (now : Int)
    (backend : Except String String) (playOk : Bool) (h : jsTrim s.text = "") :
    generateTTS s newId now backend playOk
      = ({ s with error := some "Please enter some text first." }, false)
    ∧ (generateTTS s newId now backend playOk).2 = false
    ∧ ((generateTTS s newId now backend playOk).1).history = s.history
    ∧ ((generateTTS s newId now backend playOk).1).lastAudioData = s.lastAudioData
    ∧ ((generateTTS s newId now backend playOk).1).playbackStatus = s.playbackStatus := by
  have heq : generateTTS s newId now backend playOk
      = ({ s with error := some "Please enter some text first." }, false) := by
    simp [generateTTS, h]
  exact ⟨heq, by rw [heq], by rw [heq], by rw [heq], by rw [heq]⟩

/-- Witness for `blank_text_early_return` on whitespace-only input. -/
theorem blank_text_early_return_witness :
    generateTTS ⟨"   ", .ENGLISH, .NEUTRAL, "Kore", 1, 1, 1, false, [], none, none,
        .stopped⟩ "id" 0 (.ok "AA") true
      = (⟨"   ", .ENGLISH, .NEUTRAL, "Kore", 1, 1, 1, false, [],
          some "Please enter some text first.", none, .stopped⟩, false) :=
  (blank_text_early_return ⟨"   ", .ENGLISH, .NEUTRAL, "Kore", 1, 1, 1, false, [],
    none, none, .stopped⟩ "id" 0 (.ok "AA") true (by decide)).1

end Vani
